import Mathlib

/-!
Verification development for the `acp` credential-bootstrapper
(`src/acp/cli.py`, `src/acp/db.py`, `src/acp/globus.py`).

Each definition is a shallow embedding of the corresponding Python
function; external collaborators (the SQLite engine, the filesystem,
the `fair_research_login` client, Python's `json` codec) are modelled
as explicit state/parameters, faithful to how the Python code observes
them.
-/

namespace Acp

/-! ## Flow selection (`cli.py`, `_main`, lines 39-88) -/

/-- Keyword arguments passed to `client.login(...)` in `cli.py`.
Fields default to `false`, matching `fair_research_login`'s defaults:
the interactive branch calls `g.login(refresh_tokens=True)` and the
headless branch calls
`g.login(no_local_server=True, no_browser=True, refresh_tokens=True)`. -/
structure LoginArgs where
  no_local_server : Bool
  no_browser : Bool
  refresh_tokens : Bool
deriving Repr, DecidableEq

/-- The interactive (local browser) flow: `g.login(refresh_tokens=True)`
(cli.py line 72). -/
def interactiveFlow : LoginArgs := ⟨false, false, true⟩

/-- The headless device-code flow:
`g.login(no_local_server=True, no_browser=True, refresh_tokens=True)`
(cli.py lines 81-85): no local callback listener, no local browser. -/
def headlessDeviceCodeFlow : LoginArgs := ⟨true, true, true⟩

/-- Outcome of the flow-selection step in `_main`: either the program
fails fast (`sys.exit(1)` after the "requires an interactive session"
message, cli.py lines 60-63), or it invokes `g.login` with the given
arguments. -/
inductive FlowChoice where
  | interactiveRequired
  | login (args : LoginArgs)
deriving Repr, DecidableEq

/-- The flow-selection logic of `_main` (cli.py lines 60-88), reached
when a login is needed.  `is_interactive = sys.stdout.isatty()`,
`is_ssh` = `SSH_TTY` present in the environment, `has_display` =
`DISPLAY` present in the environment (cli.py lines 39-41). -/
def select_flow (is_interactive is_ssh has_display : Bool) : FlowChoice :=
  if ¬is_interactive then
    .interactiveRequired
  else if (¬is_ssh) || (is_ssh && has_display) then
    .login interactiveFlow
  else
    .login headlessDeviceCodeFlow

/-! ## Local store (`db.py`) -/

/-- The SQLite application ID (`APPLICATION_ID`, db.py line 35),
the 32-bit signed big-endian encoding of the bytes `acp\0`. -/
def APPLICATION_ID : Int := 1633906688

/-- The observable state of one SQLite database file, as this program
reads and writes it: the `application_id` pragma, the `user_version`
pragma, which tables exist, and the rows of `cred_globus`
(`key TEXT PRIMARY KEY, json TEXT NOT NULL`).  The `cred_aws` table is
created by the migration but never read or written elsewhere, so only
its existence is tracked in `tableNames`. -/
structure SQLiteFile where
  application_id : Int
  user_version : Nat
  tableNames : List String
  cred_globus : List (String × String)
deriving Repr, DecidableEq

/-- A freshly created SQLite database: both pragmas are `0` and no
tables exist. -/
def freshSQLiteFile : SQLiteFile :=
  { application_id := 0, user_version := 0, tableNames := [], cred_globus := [] }

/-- Errors raised by the store layer: `KeyError` on an application-ID
mismatch (db.py line 143), and `sqlite3.OperationalError` from
`CREATE TABLE` when the table already exists. -/
inductive DBError where
  | identityMismatch (found : Int)
  | tableExists (name : String)
deriving Repr, DecidableEq

/-- `CREATE TABLE name (...)`: fails if the table already exists,
otherwise records the new (empty) table. -/
def createTable (conn : SQLiteFile) (name : String) :
    SQLiteFile × Except DBError Unit :=
  if conn.tableNames.contains name then
    (conn, .error (.tableExists name))
  else
    ({ conn with tableNames := conn.tableNames ++ [name] }, .ok ())

/-- `_upgrade` (db.py lines 156-188): if `user_version == 0`, create
`cred_aws` and `cred_globus` and set `PRAGMA user_version = 1`; for any
other version there are no more upgrades to do and the connection is
returned untouched.  The first component is the database state when the
call returns or raises. -/
def upgrade (conn : SQLiteFile) (user_version : Nat) :
    SQLiteFile × Except DBError Unit :=
  if user_version = 0 then
    match createTable conn "cred_aws" with
    | (c1, .error e) => (c1, .error e)
    | (c1, .ok _) =>
      match createTable c1 "cred_globus" with
      | (c2, .error e) => (c2, .error e)
      | (c2, .ok _) => ({ c2 with user_version := 1 }, .ok ())
  else
    (conn, .ok ())

/-- The migration step as `open` invokes it (db.py lines 146-149): read
`PRAGMA user_version` from the connection and pass it to `_upgrade`. -/
def migrate (conn : SQLiteFile) : SQLiteFile × Except DBError Unit :=
  upgrade conn conn.user_version

/-- `open` (db.py lines 109-152), over an explicit filesystem: a map
from paths to database files (`none` = no file at that path).
`path` is the optional explicit argument; `resolvedPath` is the value
of `db_path()`.  Faithful to the source: `new_db` is computed from
`path.exists()` on the *given* path (after defaulting), but the
connection is made to `db_path()` (db.py line 130), creating a fresh
database there if none exists.  A new database gets
`PRAGMA application_id` and `PRAGMA user_version = 0`; an existing one
must carry the expected application ID or `open` raises `KeyError`
before touching anything.  Then `_upgrade` runs on the connection's
`user_version`.  Returns the filesystem afterwards and the outcome. -/
def openDB (path : Option String) (resolvedPath : String)
    (fs : String → Option SQLiteFile) :
    (String → Option SQLiteFile) × Except DBError Unit :=
  let p := path.getD resolvedPath
  let new_db := (fs p).isNone
  let target := resolvedPath
  let conn := (fs target).getD freshSQLiteFile
  if new_db then
    let conn := { conn with application_id := APPLICATION_ID, user_version := 0 }
    let r := upgrade conn conn.user_version
    (fun q => if q = target then some r.1 else fs q, r.2)
  else
    if conn.application_id ≠ APPLICATION_ID then
      (fs, .error (.identityMismatch conn.application_id))
    else
      let r := upgrade conn conn.user_version
      (fun q => if q = target then some r.1 else fs q, r.2)

/-- The state of the store file after `open()` creates and migrates a
fresh database: our application ID, schema version 1, the two
credential tables, no token rows. -/
def initializedFile : SQLiteFile :=
  { application_id := APPLICATION_ID, user_version := 1,
    tableNames := ["cred_aws", "cred_globus"], cred_globus := [] }

/-! ## Path resolution (`db.py`, `db_path`, lines 39-105) -/

/-- Errors raised by `db_path`: `TypeError` (a non-callable object was
called) and `FileExistsError` (db.py line 102). -/
inductive PathError where
  | typeError
  | fileExists (path : String)
deriving Repr, DecidableEq

/-- Minimal filesystem view used by `db_path`: which paths exist as
directories and which as files. -/
structure FS where
  dirs : List String
  files : List String
deriving Repr, DecidableEq

/-- Look a key up in a Python-style environment mapping. -/
def lookupEnv (env : List (String × String)) (k : String) : Option String :=
  (env.find? (fun kv => kv.1 = k)).map (fun kv => kv.2)

/-- `db_path` (db.py lines 39-105).  `env` is `os.environ`, `posixHome`
is the OS-resolved home directory (`pathlib.Path.home()`).  Faithful to
the source, including its defect: the first two branches evaluate
`os.environ('ACP_DB_HOME')` / `os.environ('XDG_DATA_HOME')` — calling
the `os.environ` mapping like a function — which raises `TypeError`
before any path is built (db.py lines 66 and 77; the `HOME` branch uses
the correct `os.environ['HOME']`).  After a base directory is chosen it
is created if absent (`mkdir(parents=True)`), then required to be a
directory, and `db.sqlite3` is appended. -/
def db_path (env : List (String × String)) (posixHome : String) (fs : FS) :
    Except PathError (String × FS) :=
  if (lookupEnv env "ACP_DB_HOME").isSome then
    .error .typeError
  else if (lookupEnv env "XDG_DATA_HOME").isSome then
    .error .typeError
  else
    let pathdir :=
      match lookupEnv env "HOME" with
      | some home => home ++ "/.local/share/acp"
      | none => posixHome ++ "/.local/share/acp"
    let fs1 :=
      if fs.dirs.contains pathdir || fs.files.contains pathdir then fs
      else { fs with dirs := pathdir :: fs.dirs }
    if fs1.dirs.contains pathdir then
      .ok (pathdir ++ "/db.sqlite3", fs1)
    else
      .error (.fileExists pathdir)

/-! ## Session manager (`globus.py`) -/

/-- The three Globus scopes required by the tool
(`REQUIRED_SCOPES`, globus.py lines 42-46). -/
def REQUIRED_SCOPES : List String :=
  [ "openid",
    "profile",
    "urn:globus:auth:scope:transfer.api.globus.org:all" ]

/-- Abstract state of the external `fair_research_login.NativeClient`
as observed by `needs_login`: whether `client.load_tokens()` succeeds
(raising `fair_research_login.LoadError` otherwise — tokens missing,
corrupt, or refresh failed), and the set of scope keys of
`client.get_authorizers_by_scope()` after a successful load. -/
structure NativeClient where
  load_tokens_ok : Bool
  authorizers_by_scope : List String

/-- `needs_login` (globus.py lines 185-213): try `load_tokens`; on
`LoadError` return `True`; otherwise scan `REQUIRED_SCOPES`, clearing
`all_scopes_found` for any scope absent from
`get_authorizers_by_scope()`, and return `True` iff some scope was
missing. -/
def needs_login (client : NativeClient) : Bool :=
  if client.load_tokens_ok then
    let all_scopes_found := REQUIRED_SCOPES.foldl
      (fun acc scope =>
        if client.authorizers_by_scope.contains scope then acc else false)
      true
    if ¬all_scopes_found then true else false
  else
    true

/-! ## Token storage (`globus.py`, class `TokenStorage`) -/

/-- Token payloads handed to the storage layer.  The store treats them
as opaque; this models Python's `json` codec on the fragment the
claims exercise (integers and plain strings). -/
inductive Json where
  | num (n : Int)
  | str (s : String)
deriving Repr, DecidableEq

/-- `json.dumps` on the modelled fragment: integers render as decimal,
strings are quoted. -/
def dumps : Json → String
  | .num n => toString n
  | .str s => "\"" ++ s ++ "\""

/-- Is `c` a decimal digit? -/
def isDigit (c : Char) : Bool := decide ('0' ≤ c) && decide (c ≤ '9')

/-- Parse a nonempty all-digit character list as a natural number. -/
def parseNat (l : List Char) : Option Nat :=
  if !l.isEmpty && l.all isDigit then
    some (l.foldl (fun acc c => acc * 10 + (c.toNat - 48)) 0)
  else
    none

/-- Parse an optionally negated decimal integer. -/
def parseInt : List Char → Option Int
  | '-' :: rest => (parseNat rest).map (fun n => -(n : Int))
  | l => (parseNat l).map (fun n => (n : Int))

/-- `json.loads` on the modelled fragment: quoted text decodes to a
string, decimal text to an integer, and anything else fails to decode
(`none` models `json.JSONDecodeError`). -/
def loads (s : String) : Option Json :=
  match s.data with
  | '"' :: rest =>
    if rest.getLast? = some '"' then some (.str (String.mk rest.dropLast))
    else none
  | l => (parseInt l).map Json.num

/-- The error raised when a stored token value fails to decode:
`json.loads` raises `JSONDecodeError`, aborting the whole
`read_tokens` call. -/
inductive TokenError where
  | decodeFailure (key raw : String)
deriving Repr, DecidableEq

/-- `TokenStorage.read_tokens` (globus.py lines 74-85): select every
`(key, json)` row of `cred_globus` in order, JSON-decode each value
into the result mapping; a decode failure anywhere raises, so the call
returns no mapping at all. -/
def read_tokens : List (String × String) → Except TokenError (List (String × Json))
  | [] => .ok []
  | row :: rest =>
    match loads row.2 with
    | none => .error (.decodeFailure row.1 row.2)
    | some j =>
      match read_tokens rest with
      | .error e => .error e
      | .ok m => .ok ((row.1, j) :: m)

/-- `INSERT OR REPLACE INTO cred_globus (key, json) VALUES (?, ?)`
(globus.py lines 99-103): SQLite's REPLACE resolution deletes any row
conflicting on the primary key and inserts the new row. -/
def insertOrReplace (tbl : List (String × String)) (key json : String) :
    List (String × String) :=
  tbl.filter (fun row => row.1 ≠ key) ++ [(key, json)]

/-- `TokenStorage.write_tokens` (globus.py lines 88-105): one
transaction that JSON-encodes each entry of the mapping in order and
upserts it into `cred_globus`. -/
def write_tokens (tbl : List (String × String))
    (tokens : List (String × Json)) : List (String × String) :=
  tokens.foldl (fun t kv => insertOrReplace t kv.1 (dumps kv.2)) tbl

/-- `TokenStorage.clear_tokens` (globus.py lines 108-113): one
transaction that deletes every row of `cred_globus`. -/
def clear_tokens (_tbl : List (String × String)) : List (String × String) :=
  []

/-- `SELECT * FROM cred_globus WHERE key = k`: the rows of the table
holding the given key (used to state uniqueness and frame facts). -/
def rowsFor (tbl : List (String × String)) (k : String) :
    List (String × String) :=
  tbl.filter (fun row => row.1 = k)

end Acp

/-! ## Helper lemmas -/

/-- The scope-scanning loop of `needs_login` computes `List.all`. -/
theorem scopes_foldl_eq_all (auths : List String) (l : List String) (acc : Bool) :
    l.foldl (fun acc scope => if auths.contains scope then acc else false) acc
      = (acc && l.all (fun scope => auths.contains scope)) := by
  induction l generalizing acc with
  | nil => simp
  | cons s rest ih =>
    simp only [List.foldl_cons, List.all_cons]
    rw [ih]
    cases acc <;> cases hb : auths.contains s <;> simp [hb]

/-- A successful `_upgrade` from version 0 ends with `user_version = 1`. -/
theorem upgrade_zero_ok_version (c c' : Acp.SQLiteFile)
    (h : Acp.upgrade c 0 = (c', Except.ok ())) : c'.user_version = 1 := by
  unfold Acp.upgrade at h
  rw [if_pos rfl] at h
  split at h
  · simp at h
  · split at h
    · simp at h
    · simp only [Prod.mk.injEq] at h
      rw [← h.1]

/-- `_upgrade` at any nonzero version returns the connection untouched. -/
theorem upgrade_ne_zero (c : Acp.SQLiteFile) (v : Nat) (hv : v ≠ 0) :
    Acp.upgrade c v = (c, Except.ok ()) := by
  unfold Acp.upgrade
  rw [if_neg hv]

/-- Deleting the rows of key `k` empties `k`'s rows and preserves every
other key's rows. -/
theorem rowsFor_filter_out (tbl : List (String × String)) (k kq : String) :
    Acp.rowsFor (tbl.filter (fun row => row.1 ≠ k)) kq
      = if kq = k then [] else Acp.rowsFor tbl kq := by
  unfold Acp.rowsFor
  induction tbl with
  | nil => simp
  | cons r rest ih =>
    by_cases hrk : r.1 = k <;> by_cases hk : kq = k <;>
      by_cases hr2 : r.1 = kq <;>
      simp_all [List.filter_cons]

/-- After an upsert, the upserted key holds exactly its new row. -/
theorem rowsFor_insertOrReplace_self (tbl : List (String × String))
    (k v : String) :
    Acp.rowsFor (Acp.insertOrReplace tbl k v) k = [(k, v)] := by
  unfold Acp.insertOrReplace Acp.rowsFor
  rw [List.filter_append]
  have h1 := rowsFor_filter_out tbl k k
  unfold Acp.rowsFor at h1
  rw [h1]
  simp

/-- An upsert leaves the rows of every other key unchanged. -/
theorem rowsFor_insertOrReplace_other (tbl : List (String × String))
    (k v kq : String) (h : kq ≠ k) :
    Acp.rowsFor (Acp.insertOrReplace tbl k v) kq
      = Acp.rowsFor tbl kq := by
  unfold Acp.insertOrReplace Acp.rowsFor
  rw [List.filter_append]
  have h1 := rowsFor_filter_out tbl k kq
  unfold Acp.rowsFor at h1
  rw [h1, if_neg h]
  have h2 : ¬k = kq := fun hc => h hc.symm
  simp [h2]

/-- `write_tokens` leaves the rows of every key absent from the written
mapping unchanged. -/
theorem rowsFor_write_tokens_untouched (tokens : List (String × Acp.Json))
    (tbl : List (String × String)) (k : String)
    (h : k ∉ tokens.map Prod.fst) :
    Acp.rowsFor (Acp.write_tokens tbl tokens) k = Acp.rowsFor tbl k := by
  induction tokens generalizing tbl with
  | nil => rfl
  | cons t rest ih =>
    simp only [List.map_cons, List.mem_cons, not_or] at h
    show Acp.rowsFor
        (Acp.write_tokens (Acp.insertOrReplace tbl t.1 (Acp.dumps t.2)) rest) k
      = Acp.rowsFor tbl k
    rw [ih _ h.2]
    exact rowsFor_insertOrReplace_other tbl t.1 (Acp.dumps t.2) k h.1

/-- C1: flow selection follows the decision table: non-interactive
stdout fails fast with no flow attempted; interactive without a remote
shell runs the interactive (local browser) flow; interactive remote
shell with a display runs the interactive flow; interactive remote
shell without a display runs the headless device-code flow (no local
browser, no local callback listener). -/
theorem cli_select_flow_decision_table :
    (∀ is_ssh has_display : Bool,
      Acp.select_flow false is_ssh has_display = .interactiveRequired)
    ∧ (∀ has_display : Bool,
      Acp.select_flow true false has_display = .login Acp.interactiveFlow)
    ∧ Acp.select_flow true true true = .login Acp.interactiveFlow
    ∧ Acp.select_flow true true false = .login Acp.headlessDeviceCodeFlow := by
  decide

/-- C2: `needs_login` returns `false` exactly when `load_tokens`
succeeds and every scope in `REQUIRED_SCOPES` has a corresponding
authorizer; it returns `true` whenever loading fails or any required
scope is missing. -/
theorem needs_login_iff (client : Acp.NativeClient) :
    Acp.needs_login client = false ↔
      (client.load_tokens_ok = true ∧
        ∀ scope ∈ Acp.REQUIRED_SCOPES, scope ∈ client.authorizers_by_scope) := by
  unfold Acp.needs_login
  by_cases hload : client.load_tokens_ok = true
  · simp only [hload, if_pos]
    rw [scopes_foldl_eq_all]
    simp [List.all_eq_true]
  · simp only [Bool.not_eq_true] at hload
    simp [hload]

/-- C3: opening an existing store file whose application ID differs
from `APPLICATION_ID` fails with the identity-mismatch error
(`KeyError`), attempts no migration, and leaves the filesystem — in
particular the file's contents — exactly unchanged. -/
theorem open_foreign_identity_rejected (rp : String)
    (fs : String → Option Acp.SQLiteFile) (f : Acp.SQLiteFile)
    (hf : fs rp = some f) (hid : f.application_id ≠ Acp.APPLICATION_ID) :
    Acp.openDB none rp fs
      = (fs, Except.error (.identityMismatch f.application_id)) := by
  unfold Acp.openDB
  simp [hf, hid]

/-- Witness for C3 at a concrete store: a fresh SQLite file carries
application ID 0, which `open()` rejects, leaving the file in place. -/
theorem open_foreign_identity_rejected_witness :
    Acp.openDB none "/db"
        (fun q => if q = "/db" then some Acp.freshSQLiteFile else none)
      = (fun q => if q = "/db" then some Acp.freshSQLiteFile else none,
          Except.error (.identityMismatch 0)) :=
  open_foreign_identity_rejected "/db" _ Acp.freshSQLiteFile
    (by simp) (by decide)

/-- C4: opening a path holding no store file creates the database
there, stamps `application_id = APPLICATION_ID`, initializes
`user_version = 0`, and migrates, so the stored file afterwards carries
the expected application ID and `user_version = 1` with tables
`cred_aws` and `cred_globus` created, and the open succeeds. -/
theorem open_fresh_initializes (rp : String)
    (fs : String → Option Acp.SQLiteFile) (habsent : fs rp = none) :
    (Acp.openDB none rp fs).1 rp = some Acp.initializedFile ∧
      (Acp.openDB none rp fs).2 = Except.ok () := by
  unfold Acp.openDB
  simp [habsent, Acp.upgrade, Acp.createTable, Acp.freshSQLiteFile,
    Acp.initializedFile]

/-- Witness for C4 on an empty filesystem. -/
theorem open_fresh_initializes_witness :
    (Acp.openDB none "/db" (fun _ => none)).1 "/db"
        = some Acp.initializedFile ∧
      (Acp.openDB none "/db" (fun _ => none)).2 = Except.ok () :=
  open_fresh_initializes "/db" (fun _ => none) rfl

/-- C5 fails on the code: `open` computes `new_db` from the given
`path`, but then connects to `db_path()` (db.py line 130), so an
explicitly supplied path is never the file opened.  On an empty
filesystem, `open(path="/given.db")` with `db_path() = "/default.db"`
creates the database at `/default.db` and leaves `/given.db` absent. -/
theorem open_explicit_path_ignored :
    ((Acp.openDB (some "/given.db") "/default.db" (fun _ => none)).1
        "/given.db" = none)
    ∧ ((Acp.openDB (some "/given.db") "/default.db" (fun _ => none)).1
        "/default.db" = some Acp.initializedFile)
    ∧ (Acp.openDB (some "/given.db") "/default.db" (fun _ => none)).2
        = Except.ok () :=
  ⟨rfl, rfl, rfl⟩

/-- C6 fails on the code: the `ACP_DB_HOME` and `XDG_DATA_HOME`
branches of `db_path` call the `os.environ` mapping like a function
(`os.environ('ACP_DB_HOME')`, db.py lines 66 and 77), which raises
`TypeError` before any path is built; only the `HOME` branch (which
correctly uses `os.environ['HOME']`) resolves a path, creating the
base directory under `$HOME/.local/share/acp` and appending
`db.sqlite3`. -/
theorem db_path_override_branches_raise :
    Acp.db_path [("ACP_DB_HOME", "/custom")] "/root" ⟨[], []⟩
        = Except.error .typeError
    ∧ Acp.db_path [("XDG_DATA_HOME", "/xdg")] "/root" ⟨[], []⟩
        = Except.error .typeError
    ∧ Acp.db_path [("HOME", "/home/u")] "/root" ⟨[], []⟩
        = Except.ok ("/home/u/.local/share/acp/db.sqlite3",
            ⟨["/home/u/.local/share/acp"], []⟩) :=
  ⟨rfl, rfl, rfl⟩

/-- C7: migration is idempotent — after a successful `migrate`, running
`migrate` again changes nothing and succeeds (no duplicate table
creation, no double version advance) — and for any stored version at or
above the highest known step (1), `migrate` performs no schema change,
keeps the version, and raises no error. -/
theorem migrate_idempotent_and_future_noop :
    (∀ c c' : Acp.SQLiteFile, Acp.migrate c = (c', Except.ok ()) →
      Acp.migrate c' = (c', Except.ok ()))
    ∧ (∀ c : Acp.SQLiteFile, 1 ≤ c.user_version →
      Acp.migrate c = (c, Except.ok ())) := by
  constructor
  · intro c c' h
    unfold Acp.migrate at h ⊢
    by_cases h0 : c.user_version = 0
    · rw [h0] at h
      rw [upgrade_zero_ok_version c c' h]
      exact upgrade_ne_zero c' 1 one_ne_zero
    · have heq := (upgrade_ne_zero c c.user_version h0).symm.trans h
      simp only [Prod.mk.injEq] at heq
      rw [← heq.1]
      exact upgrade_ne_zero c c.user_version h0
  · intro c hv
    unfold Acp.migrate
    exact upgrade_ne_zero c c.user_version (by omega)

/-- Witness for C7: a fresh stamped database migrates to
`initializedFile`; migrating again is a no-op, as is migrating any
database already at version 5. -/
theorem migrate_idempotent_and_future_noop_witness :
    Acp.migrate Acp.initializedFile = (Acp.initializedFile, Except.ok ())
    ∧ Acp.migrate ⟨Acp.APPLICATION_ID, 5, ["cred_aws", "cred_globus"], []⟩
        = (⟨Acp.APPLICATION_ID, 5, ["cred_aws", "cred_globus"], []⟩,
            Except.ok ()) :=
  ⟨migrate_idempotent_and_future_noop.1
      ⟨Acp.APPLICATION_ID, 0, [], []⟩ Acp.initializedFile rfl,
    migrate_idempotent_and_future_noop.2
      ⟨Acp.APPLICATION_ID, 5, ["cred_aws", "cred_globus"], []⟩ (by decide)⟩

/-- C8: `write_tokens` is an upsert merge, not a replace-all: over any
prior table, writing `{a: 1}` then `{b: 2}` leaves exactly the row
`(a, "1")` for key `a` and exactly `(b, "2")` for key `b`; writing
`{a: 1}` then `{a: 2}` leaves exactly one row for `a`, holding `"2"`;
keys absent from a written mapping keep their rows unchanged; and from
an empty table the two spec examples read back as `{a: 1, b: 2}` and
`{a: 2}` respectively. -/
theorem write_tokens_upsert_merge :
    (∀ tbl : List (String × String),
      Acp.rowsFor
          (Acp.write_tokens (Acp.write_tokens tbl [("a", .num 1)])
            [("b", .num 2)]) "a" = [("a", "1")]
      ∧ Acp.rowsFor
          (Acp.write_tokens (Acp.write_tokens tbl [("a", .num 1)])
            [("b", .num 2)]) "b" = [("b", "2")])
    ∧ (∀ tbl : List (String × String),
      Acp.rowsFor
          (Acp.write_tokens (Acp.write_tokens tbl [("a", .num 1)])
            [("a", .num 2)]) "a" = [("a", "2")])
    ∧ (∀ (tbl : List (String × String)) (tokens : List (String × Acp.Json))
        (k : String), k ∉ tokens.map Prod.fst →
      Acp.rowsFor (Acp.write_tokens tbl tokens) k = Acp.rowsFor tbl k)
    ∧ Acp.read_tokens
        (Acp.write_tokens (Acp.write_tokens [] [("a", .num 1)])
          [("b", .num 2)])
        = Except.ok [("a", Acp.Json.num 1), ("b", Acp.Json.num 2)]
    ∧ Acp.read_tokens
        (Acp.write_tokens (Acp.write_tokens [] [("a", .num 1)])
          [("a", .num 2)])
        = Except.ok [("a", Acp.Json.num 2)] := by
  refine ⟨fun tbl => ⟨?_, ?_⟩, fun tbl => ?_,
    fun tbl tokens k hk => rowsFor_write_tokens_untouched tokens tbl k hk,
    rfl, rfl⟩
  · show Acp.rowsFor
        (Acp.insertOrReplace (Acp.insertOrReplace tbl "a" "1") "b" "2") "a"
      = [("a", "1")]
    rw [rowsFor_insertOrReplace_other _ _ _ _ (by decide)]
    exact rowsFor_insertOrReplace_self tbl "a" "1"
  · exact rowsFor_insertOrReplace_self _ "b" "2"
  · exact rowsFor_insertOrReplace_self _ "a" "2"

/-- C9: `read_tokens` is all-or-nothing: if any row's value fails to
decode the whole call fails with a `TokenDecodeFailure` error and no
partial mapping is returned; if every row decodes, the call returns the
full mapping of all rows in order. -/
theorem read_tokens_all_or_nothing (tbl : List (String × String)) :
    ((∃ row ∈ tbl, Acp.loads row.2 = none) →
      ∃ e, Acp.read_tokens tbl = Except.error e)
    ∧ ((∀ row ∈ tbl, (Acp.loads row.2).isSome) →
      Acp.read_tokens tbl
        = Except.ok (tbl.map
            (fun row => (row.1, (Acp.loads row.2).getD (.num 0))))) := by
  induction tbl with
  | nil =>
    constructor
    · intro h; simp at h
    · intro _; rfl
  | cons row rest ih =>
    constructor
    · intro h
      cases hl : Acp.loads row.2 with
      | none =>
        exact ⟨.decodeFailure row.1 row.2, by simp [Acp.read_tokens, hl]⟩
      | some j =>
        have hrest : ∃ r ∈ rest, Acp.loads r.2 = none := by
          rcases h with ⟨r, hr, hnone⟩
          rcases List.mem_cons.mp hr with hcase | hr2
          · rw [hcase] at hnone; rw [hl] at hnone; cases hnone
          · exact ⟨r, hr2, hnone⟩
        rcases ih.1 hrest with ⟨e, he⟩
        exact ⟨e, by simp [Acp.read_tokens, hl, he]⟩
    · intro h
      have hl : (Acp.loads row.2).isSome :=
        h row (List.mem_cons_self row rest)
      rcases Option.isSome_iff_exists.mp hl with ⟨j, hj⟩
      have hrest := ih.2 (fun r hr => h r (List.mem_cons_of_mem _ hr))
      simp [Acp.read_tokens, hj, hrest]

/-- Witness for C9: a table holding the undecodable value `"xyz"`
fails as a whole, and a fully decodable table reads back in full. -/
theorem read_tokens_all_or_nothing_witness :
    (∃ e, Acp.read_tokens [("a", "1"), ("b", "xyz")] = Except.error e)
    ∧ Acp.read_tokens [("a", "1"), ("b", "2")]
        = Except.ok [("a", Acp.Json.num 1), ("b", Acp.Json.num 2)] :=
  ⟨(read_tokens_all_or_nothing [("a", "1"), ("b", "xyz")]).1
      ⟨("b", "xyz"), by simp, rfl⟩,
    by
      have h := (read_tokens_all_or_nothing [("a", "1"), ("b", "2")]).2
        (by intro r hr; fin_cases hr <;> rfl)
      simpa using h⟩

/-- C10: writing an empty mapping succeeds and leaves the token table
exactly unchanged. -/
theorem write_tokens_empty_mapping (tbl : List (String × String)) :
    Acp.write_tokens tbl [] = tbl :=
  rfl

/-- Witness for C8: over the prior table `{c: "3"}`, writing `{a: 1}`
leaves key `c` untouched, and writing `{a: 1}` then `{b: 2}` leaves
exactly the row `(a, "1")` for key `a`. -/
theorem write_tokens_upsert_merge_witness :
    Acp.rowsFor (Acp.write_tokens [("c", "3")] [("a", .num 1)]) "c"
        = [("c", "3")]
    ∧ Acp.rowsFor
        (Acp.write_tokens (Acp.write_tokens [("c", "3")] [("a", .num 1)])
          [("b", .num 2)]) "a" = [("a", "1")] :=
  ⟨write_tokens_upsert_merge.2.2.1 [("c", "3")] [("a", Acp.Json.num 1)] "c"
      (by decide),
    (write_tokens_upsert_merge.1 [("c", "3")]).1⟩
